import Mathlib

/-!
Verification development for the N64-SysInfo continuous measurement engine
(`src/main.c`).  The engine is shallowly embedded as follows.

* The global `SystemMeasurements` struct and the `static` locals of
  `measure_cpu_frequency_continuous`, `measure_memory_bandwidth` and
  `calculate_fps` together form one explicit state record, `EngineState`.
* C `float` values are modelled as exact rationals (`ℚ`); the claims under
  study are about the arithmetic formulas, not binary32 rounding.
* 32-bit unsigned counters are modelled as `ℕ` with the wraparound
  subtraction `end - start` made explicit (`sub32`), and the overflowing
  products reduced `% 2^32` exactly where the C expressions are `uint32_t`.
  The cumulative frame counter is tracked unwrapped (a run never reaches
  `2^32` frames); each window consumes it only through `sub32` deltas,
  exactly as the source subtracts the `uint32_t` values.
* Hardware reads (`read_c0_count`, the `VI_CURRENT_REG` register) are inputs:
  each engine tick receives a `TickInput` with the values those reads would
  return during that call of `update_measurements`.
* The bandwidth micro-benchmark's buffer initialisation, uncached aliasing
  and cache flushes have no observable effect on the modelled state; only
  the two counter reads around the timed copy matter and they arrive as
  inputs.
-/

/-- The `SystemMeasurements` global struct of `src/main.c` (floats as `ℚ`). -/
structure SystemMeasurements where
  cpu_freq_current : ℚ
  cpu_freq_min : ℚ
  cpu_freq_max : ℚ
  cpu_cycles_per_frame : ℕ
  rdram_bandwidth : ℕ
  rdram_latency : ℕ
  rsp_load_percent : ℚ
  rdp_load_percent : ℚ
  vi_interrupts_per_sec : ℕ
  current_scanline : ℕ
  actual_fps : ℚ
  frames_counted : ℕ
  last_count : ℕ
  deriving Repr, DecidableEq

/-- Full engine state: the global struct plus every `static` local of the
measurement functions (`measure_cpu_frequency_continuous`:
`last_frame_count`, `measure_start_count`, `measuring`;
`measure_memory_bandwidth`: `last_measure_frame`; `calculate_fps`:
`last_fps_frame`, `last_fps_count`, `first_sample`). -/
structure EngineState where
  meas : SystemMeasurements
  last_frame_count : ℕ
  measure_start_count : ℕ
  measuring : Bool
  last_measure_frame : ℕ
  last_fps_frame : ℕ
  last_fps_count : ℕ
  first_sample : Bool
  deriving Repr, DecidableEq

/-- The hardware values read during one call of `update_measurements`:
the COUNT value seen by `measure_cpu_frequency_continuous`, the raw
`VI_CURRENT_REG` word, the COUNT values around the bandwidth copy loop,
and the COUNT value seen by `calculate_fps`. -/
structure TickInput where
  count_cpu : ℕ
  vi_current : ℕ
  bw_count_start : ℕ
  bw_count_end : ℕ
  count_fps : ℕ
  deriving Repr, DecidableEq

/-- Unsigned 32-bit subtraction `a - b` as the C compiler performs it on
`uint32_t` operands (lines 137, 141, 166, 199, 230, 234 of `src/main.c`). -/
def sub32 (a b : ℕ) : ℕ :=
  (a + (4294967296 - b % 4294967296)) % 4294967296

/-- The frequency estimate computed on a fire of the CPU window
(line 145): `((float)cpu_cycles / (float)frames_elapsed) * frame_rate
/ 1000000.0f`, with `cpu_cycles = count_delta * 2` truncated to 32 bits. -/
def cpu_freq_estimate (s : EngineState) (cc : ℕ) (fr : ℚ) : ℚ :=
  (((sub32 cc s.measure_start_count * 2) % 4294967296 : ℕ) : ℚ)
    / ((sub32 s.meas.frames_counted s.last_frame_count : ℕ) : ℚ)
    * fr / 1000000

/-- The min/max tracking of lines 150-156: the min bound is replaced when it
is the zero sentinel or the new estimate is strictly lower, then the max
bound is replaced when the new estimate is strictly higher. -/
def minmax_update (mm : ℚ × ℚ) (f : ℚ) : ℚ × ℚ :=
  (if mm.1 = 0 ∨ f < mm.1 then f else mm.1,
   if mm.2 < f then f else mm.2)

/-- `measure_cpu_frequency_continuous` (lines 123-160); `cc` is the COUNT
value returned by `read_c0_count()` during this call, `fr` the regional
refresh rate from `get_tv_refresh_rate()`. -/
def measure_cpu_frequency_continuous (s : EngineState) (cc : ℕ) (fr : ℚ) :
    EngineState :=
  if s.measuring = false then
    { s with measure_start_count := cc,
             last_frame_count := s.meas.frames_counted,
             measuring := true }
  else
    let frames_elapsed := sub32 s.meas.frames_counted s.last_frame_count
    if 5 ≤ frames_elapsed then
      let cpu_cycles := (sub32 cc s.measure_start_count * 2) % 4294967296
      let cpu_freq := cpu_freq_estimate s cc fr
      let mm := minmax_update (s.meas.cpu_freq_min, s.meas.cpu_freq_max)
        cpu_freq
      { s with
        meas := { s.meas with
          cpu_freq_current := cpu_freq,
          cpu_cycles_per_frame := cpu_cycles / frames_elapsed,
          cpu_freq_min := mm.1,
          cpu_freq_max := mm.2 },
        measuring := false }
    else s

/-- `measure_memory_bandwidth` (lines 163-208); `cs`, `ce` are the COUNT
values read before and after the timed 4096-byte copy.  The gate updates
`last_measure_frame` before the frequency check; with a zero frequency the
stored bandwidth is left untouched. -/
def measure_memory_bandwidth (s : EngineState) (cs ce : ℕ) : EngineState :=
  if sub32 s.meas.frames_counted s.last_measure_frame < 30 then s
  else
    let s1 := { s with last_measure_frame := s.meas.frames_counted }
    let cycles := (sub32 ce cs * 2) % 4294967296
    if 0 < s1.meas.cpu_freq_current then
      let time_seconds : ℚ :=
        (cycles : ℚ) / (s1.meas.cpu_freq_current * 1000000)
      let bandwidth_mbps : ℚ := ((4096 : ℚ) / time_seconds) / (1024 * 1024)
      { s1 with meas := { s1.meas with
          rdram_bandwidth := (⌊bandwidth_mbps⌋).toNat } }
    else s1

/-- `measure_video_scanline` (lines 211-214): store
`(*vi_current >> 1) & 0x3FF` directly, every call. -/
def measure_video_scanline (s : EngineState) (raw : ℕ) : EngineState :=
  { s with meas := { s.meas with
      current_scanline := (raw >>> 1) &&& 0x3FF } }

/-- `calculate_fps` (lines 217-245); `cc` is the COUNT value read during this
call (the source reads it in both the arming branch and the firing branch;
within one call both reads see the same modelled input). -/
def calculate_fps (s : EngineState) (cc : ℕ) : EngineState :=
  if s.first_sample = true ∧ 60 ≤ s.meas.frames_counted then
    { s with last_fps_frame := s.meas.frames_counted,
             last_fps_count := cc,
             first_sample := false }
  else
    let frames_elapsed := sub32 s.meas.frames_counted s.last_fps_frame
    if 60 ≤ frames_elapsed then
      let cpu_cycles := (sub32 cc s.last_fps_count * 2) % 4294967296
      let s1 :=
        if 0 < s.meas.cpu_freq_current ∧ 0 < frames_elapsed then
          let time_seconds : ℚ :=
            (cpu_cycles : ℚ) / (s.meas.cpu_freq_current * 1000000)
          { s with meas := { s.meas with
              actual_fps := (frames_elapsed : ℚ) / time_seconds } }
        else s
      { s1 with last_fps_frame := s1.meas.frames_counted,
                last_fps_count := cc }
    else s

/-- `update_measurements` (lines 248-262): increment the cumulative frame
counter, then run the CPU window, the scanline sampler, and — at multiples
of 60 and 30 respectively — the FPS and bandwidth windows.  `fr` is the
constant regional refresh rate. -/
def update_measurements (s : EngineState) (i : TickInput) (fr : ℚ) :
    EngineState :=
  let s0 := { s with meas := { s.meas with
      frames_counted := s.meas.frames_counted + 1 } }
  let s1 := measure_cpu_frequency_continuous s0 i.count_cpu fr
  let s2 := measure_video_scanline s1 i.vi_current
  let s3 := if s2.meas.frames_counted % 60 = 0 then
      calculate_fps s2 i.count_fps
    else s2
  if s3.meas.frames_counted % 30 = 0 then
    measure_memory_bandwidth s3 i.bw_count_start i.bw_count_end
  else s3

/-- The state established by `main` before the loop (lines 521-541): the
zero-initialised globals and statics, with `cpu_freq_current`,
`cpu_freq_min`, `cpu_freq_max` seeded to `93.75`, `rdram_bandwidth` to
`500` and `actual_fps` to the regional refresh rate `fr`. -/
def engineInit (fr : ℚ) : EngineState :=
  { meas := {
      cpu_freq_current := 93.75
      cpu_freq_min := 93.75
      cpu_freq_max := 93.75
      cpu_cycles_per_frame := 0
      rdram_bandwidth := 500
      rdram_latency := 0
      rsp_load_percent := 0
      rdp_load_percent := 0
      vi_interrupts_per_sec := 0
      current_scanline := 0
      actual_fps := fr
      frames_counted := 0
      last_count := 0 }
    last_frame_count := 0
    measure_start_count := 0
    measuring := false
    last_measure_frame := 0
    last_fps_frame := 0
    last_fps_count := 0
    first_sample := true }

/-- `n` iterations of the main loop's `update_measurements()` call, starting
from the state `main` established, with the hardware reads of tick `k+1`
supplied by `ins k`. -/
def run (fr : ℚ) (ins : ℕ → TickInput) : ℕ → EngineState
  | 0 => engineInit fr
  | n + 1 => update_measurements (run fr ins n) (ins n) fr

/-- An all-zero hardware read, used to instantiate universally quantified
statements at a concrete input. -/
def tick0 : TickInput :=
  { count_cpu := 0, vi_current := 0, bw_count_start := 0,
    bw_count_end := 0, count_fps := 0 }

/-- Input schedule whose sixth tick returns COUNT = 3750000 to the CPU
window (all other reads zero), driving the window's first fire to the
estimate 90 MHz. -/
def csIn (n : ℕ) : TickInput :=
  if n = 5 then
    { count_cpu := 3750000, vi_current := 0, bw_count_start := 0,
      bw_count_end := 0, count_fps := 0 }
  else tick0

/-- Concrete armed state for instantiations: the CPU window armed at frame 0
with start count 0, now at frame 5. -/
def sArmed : EngineState :=
  { engineInit 60 with
    measuring := true,
    meas := { (engineInit 60).meas with frames_counted := 5 } }

/-- Concrete state at frame 30 with the bandwidth window due to fire and the
frequency estimate at its seeded value 93.75. -/
def sBW : EngineState :=
  { engineInit 60 with
    meas := { (engineInit 60).meas with frames_counted := 30 } }

/-- `sBW` with the frequency estimate forced to the zero sentinel. -/
def sBW0 : EngineState :=
  { sBW with meas := { sBW.meas with cpu_freq_current := 0 } }

/-- Concrete state at frame 60 with the FPS window due, the bandwidth window
due, and the frequency estimate at the zero sentinel. -/
def sZero : EngineState :=
  { engineInit 60 with
    first_sample := false,
    meas := { (engineInit 60).meas with
      frames_counted := 60, cpu_freq_current := 0 } }

/-- The all-zero input schedule. -/
def wIn : ℕ → TickInput := fun _ => tick0

/-- The state inside one `update_measurements` call just before the FPS and
bandwidth gates: frame counter incremented, CPU window run, scanline
sampled. -/
def preFps (s : EngineState) (i : TickInput) (fr : ℚ) : EngineState :=
  measure_video_scanline
    (measure_cpu_frequency_continuous
      { s with meas := { s.meas with
          frames_counted := s.meas.frames_counted + 1 } }
      i.count_cpu fr)
    i.vi_current

lemma measure_cpu_preserves (s : EngineState) (cc : ℕ) (fr : ℚ) :
    (measure_cpu_frequency_continuous s cc fr).meas.frames_counted
        = s.meas.frames_counted
    ∧ (measure_cpu_frequency_continuous s cc fr).meas.current_scanline
        = s.meas.current_scanline
    ∧ (measure_cpu_frequency_continuous s cc fr).meas.actual_fps
        = s.meas.actual_fps
    ∧ (measure_cpu_frequency_continuous s cc fr).meas.rdram_bandwidth
        = s.meas.rdram_bandwidth
    ∧ (measure_cpu_frequency_continuous s cc fr).last_measure_frame
        = s.last_measure_frame
    ∧ (measure_cpu_frequency_continuous s cc fr).last_fps_frame
        = s.last_fps_frame
    ∧ (measure_cpu_frequency_continuous s cc fr).last_fps_count
        = s.last_fps_count
    ∧ (measure_cpu_frequency_continuous s cc fr).first_sample
        = s.first_sample := by
  unfold measure_cpu_frequency_continuous
  repeat' split <;> simp

lemma measure_video_scanline_preserves (s : EngineState) (raw : ℕ) :
    (measure_video_scanline s raw).meas.frames_counted = s.meas.frames_counted
    ∧ (measure_video_scanline s raw).meas.actual_fps = s.meas.actual_fps
    ∧ (measure_video_scanline s raw).meas.rdram_bandwidth
        = s.meas.rdram_bandwidth
    ∧ (measure_video_scanline s raw).meas.cpu_freq_current
        = s.meas.cpu_freq_current
    ∧ (measure_video_scanline s raw).meas.cpu_freq_min = s.meas.cpu_freq_min
    ∧ (measure_video_scanline s raw).meas.cpu_freq_max = s.meas.cpu_freq_max
    ∧ (measure_video_scanline s raw).last_measure_frame = s.last_measure_frame
    ∧ (measure_video_scanline s raw).last_fps_frame = s.last_fps_frame
    ∧ (measure_video_scanline s raw).last_fps_count = s.last_fps_count
    ∧ (measure_video_scanline s raw).first_sample = s.first_sample
    ∧ (measure_video_scanline s raw).measuring = s.measuring
    ∧ (measure_video_scanline s raw).last_frame_count = s.last_frame_count
    ∧ (measure_video_scanline s raw).measure_start_count
        = s.measure_start_count := by
  unfold measure_video_scanline
  simp

lemma calculate_fps_preserves (s : EngineState) (cc : ℕ) :
    (calculate_fps s cc).meas.frames_counted = s.meas.frames_counted
    ∧ (calculate_fps s cc).meas.current_scanline = s.meas.current_scanline
    ∧ (calculate_fps s cc).meas.cpu_freq_current = s.meas.cpu_freq_current
    ∧ (calculate_fps s cc).meas.cpu_freq_min = s.meas.cpu_freq_min
    ∧ (calculate_fps s cc).meas.cpu_freq_max = s.meas.cpu_freq_max
    ∧ (calculate_fps s cc).meas.rdram_bandwidth = s.meas.rdram_bandwidth
    ∧ (calculate_fps s cc).last_measure_frame = s.last_measure_frame
    ∧ (calculate_fps s cc).measuring = s.measuring
    ∧ (calculate_fps s cc).last_frame_count = s.last_frame_count
    ∧ (calculate_fps s cc).measure_start_count = s.measure_start_count := by
  unfold calculate_fps
  repeat' split <;> simp

lemma measure_memory_bandwidth_preserves (s : EngineState) (cs ce : ℕ) :
    (measure_memory_bandwidth s cs ce).meas.frames_counted
        = s.meas.frames_counted
    ∧ (measure_memory_bandwidth s cs ce).meas.current_scanline
        = s.meas.current_scanline
    ∧ (measure_memory_bandwidth s cs ce).meas.actual_fps = s.meas.actual_fps
    ∧ (measure_memory_bandwidth s cs ce).meas.cpu_freq_current
        = s.meas.cpu_freq_current
    ∧ (measure_memory_bandwidth s cs ce).meas.cpu_freq_min
        = s.meas.cpu_freq_min
    ∧ (measure_memory_bandwidth s cs ce).meas.cpu_freq_max
        = s.meas.cpu_freq_max
    ∧ (measure_memory_bandwidth s cs ce).last_fps_frame = s.last_fps_frame
    ∧ (measure_memory_bandwidth s cs ce).last_fps_count = s.last_fps_count
    ∧ (measure_memory_bandwidth s cs ce).first_sample = s.first_sample
    ∧ (measure_memory_bandwidth s cs ce).measuring = s.measuring
    ∧ (measure_memory_bandwidth s cs ce).last_frame_count = s.last_frame_count
    ∧ (measure_memory_bandwidth s cs ce).measure_start_count
        = s.measure_start_count := by
  unfold measure_memory_bandwidth
  repeat' split <;> simp

/-- C2: for every pair of 32-bit cycle-counter samples taken less than one
full `2^32` wrap apart, the unsigned 32-bit subtraction performed on lines
141 and 198-199 of `src/main.c` recovers the true elapsed cycle count from
the wrapped end sample, independent of the absolute counter values. -/
theorem sub32_recovers_true_delta (start d : ℕ)
    (hs : start < 4294967296) (hd : d < 4294967296) :
    sub32 ((start + d) % 4294967296) start = d := by
  unfold sub32
  omega

theorem sub32_recovers_true_delta_witness :
    sub32 ((4294967290 + 100) % 4294967296) 4294967290 = 100 :=
  sub32_recovers_true_delta 4294967290 100 (by decide) (by decide)

/-- C1: on a fire of the CPU-frequency window with `frameRateHz = 60`,
`framesElapsed = 5` and cycle delta `D` (with `D * 2` within 32 bits, the
implicit no-wrap precondition), the published `cpu_freq_current` equals
`(D*2/5)*60/1000000` MHz, deterministically from the inputs. -/
theorem cpu_freq_window_formula (s : EngineState) (cc : ℕ) (fr : ℚ)
    (hm : s.measuring = true)
    (hfe : sub32 s.meas.frames_counted s.last_frame_count = 5)
    (hfr : fr = 60)
    (hD : sub32 cc s.measure_start_count * 2 < 4294967296) :
    (measure_cpu_frequency_continuous s cc fr).meas.cpu_freq_current
      = ((sub32 cc s.measure_start_count : ℚ) * 2 / 5) * 60 / 1000000 := by
  subst hfr
  unfold measure_cpu_frequency_continuous
  rw [hm]
  simp only [Bool.true_eq_false, if_false, hfe]
  rw [if_pos (by omega)]
  simp only [cpu_freq_estimate, hfe, Nat.mod_eq_of_lt hD]
  push_cast
  ring

theorem cpu_freq_window_formula_witness :
    (measure_cpu_frequency_continuous sArmed 3906250 60).meas.cpu_freq_current
      = ((sub32 3906250 sArmed.measure_start_count : ℚ) * 2 / 5) * 60
          / 1000000 :=
  cpu_freq_window_formula sArmed 3906250 60 rfl (by decide) rfl (by decide)

/-- C3: on a fire of the bandwidth window with `cpu_freq_current = 93.75`
MHz and measured cycle delta `C` (with `C * 2` within 32 bits), the stored
bandwidth equals `(4096 / ((C*2)/(93.75e6))) / 1048576` MB/s truncated to
the integer `rdram_bandwidth` field; and when the window fires while
`cpu_freq_current` is zero, the stored bandwidth is left unchanged. -/
theorem bandwidth_window_formula (s : EngineState) (cs ce : ℕ)
    (hg : 30 ≤ sub32 s.meas.frames_counted s.last_measure_frame)
    (hC : sub32 ce cs * 2 < 4294967296) :
    (s.meas.cpu_freq_current = 93.75 →
      (measure_memory_bandwidth s cs ce).meas.rdram_bandwidth
        = (⌊((4096 : ℚ) / (((sub32 ce cs : ℚ) * 2) / (93.75 * 1000000)))
            / 1048576⌋).toNat)
    ∧ (s.meas.cpu_freq_current = 0 →
      (measure_memory_bandwidth s cs ce).meas.rdram_bandwidth
        = s.meas.rdram_bandwidth) := by
  constructor
  · intro hf
    unfold measure_memory_bandwidth
    rw [if_neg (by omega)]
    simp only [hf]
    rw [if_pos (by norm_num)]
    simp only [Nat.mod_eq_of_lt hC]
    push_cast
    norm_num
  · intro hf
    unfold measure_memory_bandwidth
    rw [if_neg (by omega)]
    simp only [hf]
    rw [if_neg (by norm_num)]

theorem bandwidth_window_formula_witness :
    (measure_memory_bandwidth sBW 0 7500).meas.rdram_bandwidth
      = (⌊((4096 : ℚ) / (((sub32 7500 0 : ℚ) * 2) / (93.75 * 1000000)))
          / 1048576⌋).toNat
    ∧ (measure_memory_bandwidth sBW0 0 7500).meas.rdram_bandwidth
        = sBW0.meas.rdram_bandwidth :=
  ⟨(bandwidth_window_formula sBW 0 7500 (by decide) (by decide)).1 rfl,
   (bandwidth_window_formula sBW0 0 7500 (by decide) (by decide)).2 rfl⟩

lemma update_scanline (s : EngineState) (i : TickInput) (fr : ℚ) :
    (update_measurements s i fr).meas.current_scanline
      = (i.vi_current >>> 1) &&& 0x3FF := by
  unfold update_measurements
  dsimp only
  split
  · split
    · rw [(measure_memory_bandwidth_preserves _ _ _).2.1,
        (calculate_fps_preserves _ _).2.1]
      rfl
    · rw [(calculate_fps_preserves _ _).2.1]
      rfl
  · split
    · rw [(measure_memory_bandwidth_preserves _ _ _).2.1]
      rfl
    · rfl

/-- C8: on every engine tick the scanline sampler stores the raw
`VI_CURRENT_REG` value shifted right by one and masked to ten bits, with no
windowing or memoization: after any call of `update_measurements` the
published `current_scanline` is exactly the masked value of that tick's
register read, and two consecutive ticks presenting raw values with
different masked fields store two correspondingly different values. -/
theorem scanline_always_fresh (s : EngineState) (i : TickInput) (fr : ℚ) :
    (update_measurements s i fr).meas.current_scanline
      = (i.vi_current >>> 1) &&& 0x3FF
    ∧ ∀ (j : TickInput) (gr : ℚ),
        (j.vi_current >>> 1) &&& 0x3FF ≠ (i.vi_current >>> 1) &&& 0x3FF →
        (update_measurements (update_measurements s i fr) j
            gr).meas.current_scanline
          ≠ (update_measurements s i fr).meas.current_scanline := by
  refine ⟨update_scanline s i fr, fun j gr hne => ?_⟩
  rw [update_scanline, update_scanline]
  exact hne

theorem scanline_always_fresh_witness :
    (update_measurements (engineInit 60) tick0 60).meas.current_scanline
      = (tick0.vi_current >>> 1) &&& 0x3FF
    ∧ (update_measurements (update_measurements (engineInit 60) tick0 60)
          { tick0 with vi_current := 8 } 60).meas.current_scanline
        ≠ (update_measurements (engineInit 60) tick0 60).meas.current_scanline :=
  ⟨(scanline_always_fresh (engineInit 60) tick0 60).1,
   (scanline_always_fresh (engineInit 60) tick0 60).2
     { tick0 with vi_current := 8 } 60 (by decide)⟩

/-- C10: a zero-frequency skip still consumes the measurement window.  When
the FPS window fires while `cpu_freq_current = 0`, `actual_fps` is left
unchanged but `last_fps_frame` and `last_fps_count` are still advanced to
the current frame and cycle count; and the bandwidth window updates
`last_measure_frame` before checking the frequency, so the skipped interval
is never re-measured. -/
theorem zero_freq_skip_consumes_window (s : EngineState) (cc cs ce : ℕ) :
    (¬ (s.first_sample = true ∧ 60 ≤ s.meas.frames_counted) →
      60 ≤ sub32 s.meas.frames_counted s.last_fps_frame →
      s.meas.cpu_freq_current = 0 →
        (calculate_fps s cc).meas.actual_fps = s.meas.actual_fps
        ∧ (calculate_fps s cc).last_fps_frame = s.meas.frames_counted
        ∧ (calculate_fps s cc).last_fps_count = cc)
    ∧ (30 ≤ sub32 s.meas.frames_counted s.last_measure_frame →
      s.meas.cpu_freq_current = 0 →
        (measure_memory_bandwidth s cs ce).last_measure_frame
            = s.meas.frames_counted
        ∧ (measure_memory_bandwidth s cs ce).meas.rdram_bandwidth
            = s.meas.rdram_bandwidth) := by
  constructor
  · intro harm hfire hzero
    unfold calculate_fps
    rw [if_neg harm, if_pos hfire]
    simp only [hzero]
    rw [if_neg (by simp)]
    simp
  · intro hg hzero
    unfold measure_memory_bandwidth
    rw [if_neg (by omega)]
    simp only [hzero]
    rw [if_neg (by norm_num)]
    simp

theorem zero_freq_skip_consumes_window_witness :
    ((calculate_fps sZero 777).meas.actual_fps = sZero.meas.actual_fps
      ∧ (calculate_fps sZero 777).last_fps_frame = sZero.meas.frames_counted
      ∧ (calculate_fps sZero 777).last_fps_count = 777)
    ∧ ((measure_memory_bandwidth sZero 0 7500).last_measure_frame
          = sZero.meas.frames_counted
      ∧ (measure_memory_bandwidth sZero 0 7500).meas.rdram_bandwidth
          = sZero.meas.rdram_bandwidth) :=
  ⟨(zero_freq_skip_consumes_window sZero 777 0 7500).1 (by decide) (by decide)
      rfl,
   (zero_freq_skip_consumes_window sZero 777 0 7500).2 (by decide) rfl⟩

lemma minmax_update_le (mm : ℚ × ℚ) (f : ℚ) (h : mm.1 ≤ mm.2) :
    (minmax_update mm f).1 ≤ (minmax_update mm f).2 := by
  unfold minmax_update
  dsimp only
  split <;> split <;> linarith

lemma measure_cpu_minmax_le (s : EngineState) (cc : ℕ) (fr : ℚ)
    (h : s.meas.cpu_freq_min ≤ s.meas.cpu_freq_max) :
    (measure_cpu_frequency_continuous s cc fr).meas.cpu_freq_min
      ≤ (measure_cpu_frequency_continuous s cc fr).meas.cpu_freq_max := by
  unfold measure_cpu_frequency_continuous
  split
  · exact h
  · dsimp only
    split
    · exact minmax_update_le _ _ h
    · exact h

lemma update_minmax_le (s : EngineState) (i : TickInput) (fr : ℚ)
    (h : s.meas.cpu_freq_min ≤ s.meas.cpu_freq_max) :
    (update_measurements s i fr).meas.cpu_freq_min
      ≤ (update_measurements s i fr).meas.cpu_freq_max := by
  unfold update_measurements
  dsimp only
  split
  · split
    · rw [(measure_memory_bandwidth_preserves _ _ _).2.2.2.2.1,
        (measure_memory_bandwidth_preserves _ _ _).2.2.2.2.2.1,
        (calculate_fps_preserves _ _).2.2.2.1,
        (calculate_fps_preserves _ _).2.2.2.2.1,
        (measure_video_scanline_preserves _ _).2.2.2.2.1,
        (measure_video_scanline_preserves _ _).2.2.2.2.2.1]
      exact measure_cpu_minmax_le _ _ _ h
    · rw [(calculate_fps_preserves _ _).2.2.2.1,
        (calculate_fps_preserves _ _).2.2.2.2.1,
        (measure_video_scanline_preserves _ _).2.2.2.2.1,
        (measure_video_scanline_preserves _ _).2.2.2.2.2.1]
      exact measure_cpu_minmax_le _ _ _ h
  · split
    · rw [(measure_memory_bandwidth_preserves _ _ _).2.2.2.2.1,
        (measure_memory_bandwidth_preserves _ _ _).2.2.2.2.2.1,
        (measure_video_scanline_preserves _ _).2.2.2.2.1,
        (measure_video_scanline_preserves _ _).2.2.2.2.2.1]
      exact measure_cpu_minmax_le _ _ _ h
    · rw [(measure_video_scanline_preserves _ _).2.2.2.2.1,
        (measure_video_scanline_preserves _ _).2.2.2.2.2.1]
      exact measure_cpu_minmax_le _ _ _ h

/-- C9: the invariant `cpu_freq_min ≤ cpu_freq_max` holds in the state
`main` establishes (both bounds seeded to 93.75), is preserved by every
call of `update_measurements` for every hardware reading, and therefore
holds after every run of the engine: within a CPU-window fire the max
check runs against the same estimate after the min check, so the bounds
never cross. -/
theorem freq_bounds_never_cross (fr : ℚ) :
    (engineInit fr).meas.cpu_freq_min ≤ (engineInit fr).meas.cpu_freq_max
    ∧ (∀ (s : EngineState) (i : TickInput),
        s.meas.cpu_freq_min ≤ s.meas.cpu_freq_max →
        (update_measurements s i fr).meas.cpu_freq_min
          ≤ (update_measurements s i fr).meas.cpu_freq_max)
    ∧ (∀ (ins : ℕ → TickInput) (n : ℕ),
        (run fr ins n).meas.cpu_freq_min
          ≤ (run fr ins n).meas.cpu_freq_max) := by
  refine ⟨le_refl _, fun s i h => update_minmax_le s i fr h, fun ins n => ?_⟩
  induction n with
  | zero => exact le_refl _
  | succ n ih => exact update_minmax_le _ _ _ ih

theorem freq_bounds_never_cross_witness :
    (engineInit 60).meas.cpu_freq_min ≤ (engineInit 60).meas.cpu_freq_max
    ∧ (update_measurements (engineInit 60) tick0 60).meas.cpu_freq_min
        ≤ (update_measurements (engineInit 60) tick0 60).meas.cpu_freq_max
    ∧ (run 60 wIn 3).meas.cpu_freq_min ≤ (run 60 wIn 3).meas.cpu_freq_max :=
  ⟨(freq_bounds_never_cross 60).1,
   (freq_bounds_never_cross 60).2.1 (engineInit 60) tick0 (le_refl _),
   (freq_bounds_never_cross 60).2.2 wIn 3⟩

lemma minmax_update_min_max (mm : ℚ × ℚ) (f : ℚ) (h : 0 < mm.1) :
    minmax_update mm f = (min mm.1 f, max mm.2 f) := by
  unfold minmax_update
  have h1 : ¬ mm.1 = 0 := ne_of_gt h
  rcases lt_or_le f mm.1 with hf | hf
  · rcases lt_or_le mm.2 f with hg | hg
    · rw [if_pos (Or.inr hf), if_pos hg, min_eq_right hf.le, max_eq_right hg.le]
    · rw [if_pos (Or.inr hf), if_neg (not_lt.mpr hg), min_eq_right hf.le,
        max_eq_left hg]
  · rcases lt_or_le mm.2 f with hg | hg
    · rw [if_neg (by push_neg; exact ⟨h1, hf⟩), if_pos hg, min_eq_left hf,
        max_eq_right hg.le]
    · rw [if_neg (by push_neg; exact ⟨h1, hf⟩), if_neg (not_lt.mpr hg),
        min_eq_left hf, max_eq_left hg]

lemma foldl_minmax_update_eq (l : List ℚ) :
    ∀ mm : ℚ × ℚ, 0 < mm.1 → (∀ x ∈ l, 0 < x) →
      l.foldl minmax_update mm = (l.foldl min mm.1, l.foldl max mm.2) := by
  induction l with
  | nil => intro mm _ _; rfl
  | cons a t ih =>
    intro mm hm hl
    rw [List.foldl_cons, List.foldl_cons, List.foldl_cons,
      minmax_update_min_max mm a hm]
    exact ih (min mm.1 a, max mm.2 a)
      (lt_min hm (hl a (List.mem_cons_self a t)))
      (fun x hx => hl x (List.mem_cons_of_mem a hx))

/-- C6: feeding the frequency estimates `[93.70, 93.80, 93.65, 93.90]`
through the CPU window's min/max tracking, starting from the bounds `main`
seeds (93.75, 93.75), yields the final bounds `min = 93.65` and
`max = 93.90`, and the same final bounds result from every permutation of
the arrival order (the running bounds are order-independent). -/
theorem minmax_order_independent (l : List ℚ)
    (h : l.Perm [93.70, 93.80, 93.65, 93.90]) :
    l.foldl minmax_update (93.75, 93.75) = (93.65, 93.90) := by
  have hpos : ∀ x ∈ l, 0 < x := by
    intro x hx
    have hx' := h.mem_iff.mp hx
    simp only [List.mem_cons, List.not_mem_nil, or_false] at hx'
    rcases hx' with h1 | h1 | h1 | h1 <;> rw [h1] <;> norm_num
  haveI : RightCommutative (min : ℚ → ℚ → ℚ) :=
    ⟨fun a b c => by rw [min_assoc, min_comm b c, ← min_assoc]⟩
  haveI : RightCommutative (max : ℚ → ℚ → ℚ) :=
    ⟨fun a b c => by rw [max_assoc, max_comm b c, ← max_assoc]⟩
  rw [foldl_minmax_update_eq l (93.75, 93.75) (by norm_num) hpos]
  have hmin1 : List.foldl min ((93.75 : ℚ), (93.75 : ℚ)).1 l
      = List.foldl min (93.75 : ℚ) [93.70, 93.80, 93.65, 93.90] :=
    h.foldl_eq _
  have hmax1 : List.foldl max ((93.75 : ℚ), (93.75 : ℚ)).2 l
      = List.foldl max (93.75 : ℚ) [93.70, 93.80, 93.65, 93.90] :=
    h.foldl_eq _
  rw [hmin1, hmax1]
  norm_num [List.foldl_cons, List.foldl_nil, min_def, max_def]

theorem minmax_order_independent_witness :
    List.foldl minmax_update (93.75, 93.75) [93.70, 93.80, 93.65, 93.90]
      = (93.65, 93.90) :=
  minmax_order_independent [93.70, 93.80, 93.65, 93.90] (List.Perm.refl _)

lemma update_measurements_decomp (s : EngineState) (i : TickInput) (fr : ℚ) :
    update_measurements s i fr
      = (if (if (preFps s i fr).meas.frames_counted % 60 = 0
             then calculate_fps (preFps s i fr) i.count_fps
             else preFps s i fr).meas.frames_counted % 30 = 0
         then measure_memory_bandwidth
            (if (preFps s i fr).meas.frames_counted % 60 = 0
             then calculate_fps (preFps s i fr) i.count_fps
             else preFps s i fr) i.bw_count_start i.bw_count_end
         else (if (preFps s i fr).meas.frames_counted % 60 = 0
               then calculate_fps (preFps s i fr) i.count_fps
               else preFps s i fr)) := rfl

lemma preFps_fields (s : EngineState) (i : TickInput) (fr : ℚ) :
    (preFps s i fr).meas.frames_counted = s.meas.frames_counted + 1
    ∧ (preFps s i fr).meas.actual_fps = s.meas.actual_fps
    ∧ (preFps s i fr).last_fps_frame = s.last_fps_frame
    ∧ (preFps s i fr).last_fps_count = s.last_fps_count
    ∧ (preFps s i fr).first_sample = s.first_sample := by
  unfold preFps
  refine ⟨?_, ?_, ?_, ?_, ?_⟩
  · show (measure_cpu_frequency_continuous _ _ _).meas.frames_counted = _
    rw [(measure_cpu_preserves _ _ _).1]
  · show (measure_cpu_frequency_continuous _ _ _).meas.actual_fps = _
    rw [(measure_cpu_preserves _ _ _).2.2.1]
  · show (measure_cpu_frequency_continuous _ _ _).last_fps_frame = _
    rw [(measure_cpu_preserves _ _ _).2.2.2.2.2.1]
  · show (measure_cpu_frequency_continuous _ _ _).last_fps_count = _
    rw [(measure_cpu_preserves _ _ _).2.2.2.2.2.2.1]
  · show (measure_cpu_frequency_continuous _ _ _).first_sample = _
    rw [(measure_cpu_preserves _ _ _).2.2.2.2.2.2.2]

lemma update_frames (s : EngineState) (i : TickInput) (fr : ℚ) :
    (update_measurements s i fr).meas.frames_counted
      = s.meas.frames_counted + 1 := by
  rw [update_measurements_decomp]
  split
  · split
    · rw [(measure_memory_bandwidth_preserves _ _ _).1,
        (calculate_fps_preserves _ _).1, (preFps_fields s i fr).1]
    · rw [(calculate_fps_preserves _ _).1, (preFps_fields s i fr).1]
  · split
    · rw [(measure_memory_bandwidth_preserves _ _ _).1,
        (preFps_fields s i fr).1]
    · exact (preFps_fields s i fr).1

lemma update_fps_off (s : EngineState) (i : TickInput) (fr : ℚ)
    (h60 : (s.meas.frames_counted + 1) % 60 ≠ 0) :
    (update_measurements s i fr).first_sample = s.first_sample
    ∧ (update_measurements s i fr).last_fps_frame = s.last_fps_frame
    ∧ (update_measurements s i fr).meas.actual_fps = s.meas.actual_fps := by
  have h1 := preFps_fields s i fr
  have hP : ¬ (preFps s i fr).meas.frames_counted % 60 = 0 := by
    rw [h1.1]; exact h60
  rw [update_measurements_decomp, if_neg hP]
  split
  · exact ⟨by rw [(measure_memory_bandwidth_preserves _ _ _).2.2.2.2.2.2.2.2.1,
        h1.2.2.2.2],
      by rw [(measure_memory_bandwidth_preserves _ _ _).2.2.2.2.2.2.1,
        h1.2.2.1],
      by rw [(measure_memory_bandwidth_preserves _ _ _).2.2.1, h1.2.1]⟩
  · exact ⟨h1.2.2.2.2, h1.2.2.1, h1.2.1⟩

lemma calculate_fps_arm (s : EngineState) (cc : ℕ)
    (hfs : s.first_sample = true) (hge : 60 ≤ s.meas.frames_counted) :
    calculate_fps s cc
      = { s with last_fps_frame := s.meas.frames_counted,
                 last_fps_count := cc,
                 first_sample := false } := by
  unfold calculate_fps
  rw [if_pos ⟨hfs, hge⟩]

lemma calculate_fps_fire (s : EngineState) (cc : ℕ)
    (hfs : s.first_sample = false)
    (hge : 60 ≤ sub32 s.meas.frames_counted s.last_fps_frame) :
    (calculate_fps s cc).last_fps_frame = s.meas.frames_counted
    ∧ (calculate_fps s cc).last_fps_count = cc
    ∧ (calculate_fps s cc).first_sample = false := by
  unfold calculate_fps
  rw [if_neg (by simp [hfs])]
  dsimp only
  rw [if_pos hge]
  refine ⟨?_, rfl, ?_⟩
  · split <;> rfl
  · show (if _ then _ else _ : EngineState).first_sample = false
    split
    · exact hfs
    · exact hfs

lemma update_fps_arm (s : EngineState) (i : TickInput) (fr : ℚ)
    (h60 : (s.meas.frames_counted + 1) % 60 = 0)
    (hfs : s.first_sample = true)
    (hge : 60 ≤ s.meas.frames_counted + 1) :
    (update_measurements s i fr).first_sample = false
    ∧ (update_measurements s i fr).last_fps_frame
        = s.meas.frames_counted + 1
    ∧ (update_measurements s i fr).meas.actual_fps = s.meas.actual_fps := by
  have h1 := preFps_fields s i fr
  have hP : (preFps s i fr).meas.frames_counted % 60 = 0 := by
    rw [h1.1]; exact h60
  rw [update_measurements_decomp, if_pos hP]
  rw [calculate_fps_arm (preFps s i fr) i.count_fps
    (by rw [h1.2.2.2.2]; exact hfs) (by rw [h1.1]; exact hge)]
  split
  · refine ⟨?_, ?_, ?_⟩
    · rw [(measure_memory_bandwidth_preserves _ _ _).2.2.2.2.2.2.2.2.1]
    · rw [(measure_memory_bandwidth_preserves _ _ _).2.2.2.2.2.2.1]
      exact h1.1
    · rw [(measure_memory_bandwidth_preserves _ _ _).2.2.1]
      exact h1.2.1
  · exact ⟨rfl, h1.1, h1.2.1⟩

lemma update_fps_fire (s : EngineState) (i : TickInput) (fr : ℚ)
    (h60 : (s.meas.frames_counted + 1) % 60 = 0)
    (hfs : s.first_sample = false)
    (hge : 60 ≤ sub32 (s.meas.frames_counted + 1) s.last_fps_frame) :
    (update_measurements s i fr).first_sample = false
    ∧ (update_measurements s i fr).last_fps_frame
        = s.meas.frames_counted + 1 := by
  have h1 := preFps_fields s i fr
  have hP : (preFps s i fr).meas.frames_counted % 60 = 0 := by
    rw [h1.1]; exact h60
  rw [update_measurements_decomp, if_pos hP]
  have hfire := calculate_fps_fire (preFps s i fr) i.count_fps
    (by rw [h1.2.2.2.2]; exact hfs) (by rw [h1.1, h1.2.2.1]; exact hge)
  split
  · refine ⟨?_, ?_⟩
    · rw [(measure_memory_bandwidth_preserves _ _ _).2.2.2.2.2.2.2.2.1]
      exact hfire.2.2
    · rw [(measure_memory_bandwidth_preserves _ _ _).2.2.2.2.2.2.1]
      rw [hfire.1]
      exact h1.1
  · exact ⟨hfire.2.2, by rw [hfire.1]; exact h1.1⟩

lemma run_fps_invariant (fr : ℚ) (ins : ℕ → TickInput) (n : ℕ) :
    (run fr ins n).meas.frames_counted = n
    ∧ (run fr ins n).first_sample = decide (n < 60)
    ∧ (run fr ins n).last_fps_frame = 60 * (n / 60)
    ∧ (n < 120 → (run fr ins n).meas.actual_fps = fr) := by
  induction n with
  | zero => exact ⟨rfl, rfl, rfl, fun _ => rfl⟩
  | succ n ih =>
    obtain ⟨hf, hs, hl, hfps⟩ := ih
    have hrun : run fr ins (n + 1)
        = update_measurements (run fr ins n) (ins n) fr := rfl
    by_cases h60 : (n + 1) % 60 = 0
    · by_cases hn : n + 1 = 60
      · have hn' : n = 59 := by omega
        subst hn'
        have harm := update_fps_arm (run fr ins 59) (ins 59) fr
          (by rw [hf]) (by rw [hs]; decide) (by rw [hf])
        refine ⟨by rw [hrun, update_frames, hf], ?_, ?_, ?_⟩
        · rw [hrun, harm.1]
          decide
        · rw [hrun, harm.2.1, hf]
        · intro _
          rw [hrun, harm.2.2]
          exact hfps (by omega)
      · have h120 : 120 ≤ n + 1 := by omega
        have hfs' : (run fr ins n).first_sample = false := by
          rw [hs]
          simp only [decide_eq_false_iff_not, not_lt]
          omega
        have hge' : 60 ≤ sub32 ((run fr ins n).meas.frames_counted + 1)
            (run fr ins n).last_fps_frame := by
          rw [hf, hl]
          unfold sub32
          omega
        have hfire := update_fps_fire (run fr ins n) (ins n) fr
          (by rw [hf]; exact h60) hfs' hge'
        refine ⟨by rw [hrun, update_frames, hf], ?_, ?_, ?_⟩
        · rw [hrun, hfire.1]
          symm
          simp only [decide_eq_false_iff_not, not_lt]
          omega
        · rw [hrun, hfire.2, hf]
          omega
        · intro hlt
          omega
    · have hoff := update_fps_off (run fr ins n) (ins n) fr
        (by rw [hf]; exact h60)
      refine ⟨by rw [hrun, update_frames, hf], ?_, ?_, ?_⟩
      · rw [hrun, hoff.1, hs]
        exact decide_eq_decide.mpr (by omega)
      · rw [hrun, hoff.2.1, hl]
        omega
      · intro hlt
        rw [hrun, hoff.2.2]
        exact hfps (by omega)

/-- C4: the FPS window never publishes before the cumulative frame counter
reaches 60 — indeed `actual_fps` still holds its initial value up to tick
119, and the first eligible call (tick 60) only arms, clearing
`first_sample` and capturing the start frame — and after that first
activation the window start `last_fps_frame` advances to every multiple of
60 exactly once (fires exactly once per 60-tick interval) while
`actual_fps` can change only on a tick `m+1` that is a multiple of 60 at or
past 120, when the engine is ticked once per frame. -/
theorem fps_window_schedule (fr : ℚ) (ins : ℕ → TickInput) (n : ℕ) :
    ((run fr ins n).first_sample = decide (n < 60))
    ∧ ((run fr ins n).last_fps_frame = 60 * (n / 60))
    ∧ (n < 120 → (run fr ins n).meas.actual_fps = fr)
    ∧ (∀ m : ℕ, ¬ (120 ≤ m + 1 ∧ (m + 1) % 60 = 0) →
        (run fr ins (m + 1)).meas.actual_fps
          = (run fr ins m).meas.actual_fps) := by
  obtain ⟨hf, hs, hl, hfps⟩ := run_fps_invariant fr ins n
  refine ⟨hs, hl, hfps, fun m hm => ?_⟩
  obtain ⟨hf', hs', hl', _⟩ := run_fps_invariant fr ins m
  have hrun : run fr ins (m + 1)
      = update_measurements (run fr ins m) (ins m) fr := rfl
  by_cases h60 : (m + 1) % 60 = 0
  · have hm60 : m = 59 := by
      rcases not_and_or.mp hm with hlt | hne
      · omega
      · exact absurd h60 hne
    subst hm60
    have harm := update_fps_arm (run fr ins 59) (ins 59) fr
      (by rw [hf']) (by rw [hs']; decide) (by rw [hf'])
    rw [hrun, harm.2.2]
  · have hoff := update_fps_off (run fr ins m) (ins m) fr
      (by rw [hf']; exact h60)
    rw [hrun, hoff.2.2]

theorem fps_window_schedule_witness :
    ((run 60 wIn 5).first_sample = decide (5 < 60))
    ∧ ((run 60 wIn 5).last_fps_frame = 60 * (5 / 60))
    ∧ (run 60 wIn 5).meas.actual_fps = 60
    ∧ (run 60 wIn (0 + 1)).meas.actual_fps
        = (run 60 wIn 0).meas.actual_fps :=
  ⟨(fps_window_schedule 60 wIn 5).1, (fps_window_schedule 60 wIn 5).2.1,
   (fps_window_schedule 60 wIn 5).2.2.1 (by decide),
   (fps_window_schedule 60 wIn 5).2.2.2 0 (by decide)⟩

lemma measure_cpu_no_fire_meas (s : EngineState) (cc : ℕ) (fr : ℚ)
    (h : s.measuring = true →
      sub32 s.meas.frames_counted s.last_frame_count < 5) :
    (measure_cpu_frequency_continuous s cc fr).meas = s.meas := by
  unfold measure_cpu_frequency_continuous
  split
  · rfl
  · dsimp only
    rename_i hm
    have hm' : s.measuring = true := by
      revert hm
      cases s.measuring <;> simp
    rw [if_neg (by have h5 := h hm'; omega)]

/-- Claim C7 (amended): `update_measurements` is itself the frame tick —
every call advances `frames_counted` by exactly one, so a second call can
never leave all derived metrics unchanged.  Beyond that forced advance, a
second call that crosses no window boundary (the new count is not a
multiple of 30 or 60 and the CPU window stays below its 5-frame threshold)
leaves `cpu_freq_current`, `cpu_freq_min`, `cpu_freq_max`,
`rdram_bandwidth` and `actual_fps` unchanged, while the scanline is
re-sampled from that call's register read. -/
theorem update_is_frame_tick (s : EngineState) (i : TickInput) (fr : ℚ) :
    (update_measurements s i fr).meas.frames_counted
        = s.meas.frames_counted + 1
    ∧ ((s.meas.frames_counted + 1) % 60 ≠ 0 →
        (s.meas.frames_counted + 1) % 30 ≠ 0 →
        (s.measuring = true →
          sub32 (s.meas.frames_counted + 1) s.last_frame_count < 5) →
        ((update_measurements s i fr).meas.cpu_freq_current
            = s.meas.cpu_freq_current
         ∧ (update_measurements s i fr).meas.cpu_freq_min
            = s.meas.cpu_freq_min
         ∧ (update_measurements s i fr).meas.cpu_freq_max
            = s.meas.cpu_freq_max
         ∧ (update_measurements s i fr).meas.rdram_bandwidth
            = s.meas.rdram_bandwidth
         ∧ (update_measurements s i fr).meas.actual_fps = s.meas.actual_fps
         ∧ (update_measurements s i fr).meas.current_scanline
            = (i.vi_current >>> 1) &&& 0x3FF)) := by
  refine ⟨update_frames s i fr, fun h60 h30 hcpu => ?_⟩
  have h1 := preFps_fields s i fr
  have hP : ¬ (preFps s i fr).meas.frames_counted % 60 = 0 := by
    rw [h1.1]; exact h60
  have hQ : ¬ (preFps s i fr).meas.frames_counted % 30 = 0 := by
    rw [h1.1]; exact h30
  rw [update_measurements_decomp, if_neg hP, if_neg hQ]
  have hmeas : (measure_cpu_frequency_continuous
      { s with meas := { s.meas with
          frames_counted := s.meas.frames_counted + 1 } }
      i.count_cpu fr).meas
      = { s.meas with frames_counted := s.meas.frames_counted + 1 } :=
    measure_cpu_no_fire_meas _ _ _ (fun hm => hcpu hm)
  unfold preFps
  refine ⟨?_, ?_, ?_, ?_, ?_, rfl⟩
  · show (measure_cpu_frequency_continuous _ _ _).meas.cpu_freq_current = _
    rw [hmeas]
  · show (measure_cpu_frequency_continuous _ _ _).meas.cpu_freq_min = _
    rw [hmeas]
  · show (measure_cpu_frequency_continuous _ _ _).meas.cpu_freq_max = _
    rw [hmeas]
  · show (measure_cpu_frequency_continuous _ _ _).meas.rdram_bandwidth = _
    rw [hmeas]
  · show (measure_cpu_frequency_continuous _ _ _).meas.actual_fps = _
    rw [hmeas]

theorem update_is_frame_tick_witness :
    (update_measurements (engineInit 60) tick0 60).meas.frames_counted
        = (engineInit 60).meas.frames_counted + 1
    ∧ ((update_measurements (engineInit 60) tick0 60).meas.cpu_freq_current
          = (engineInit 60).meas.cpu_freq_current
       ∧ (update_measurements (engineInit 60) tick0 60).meas.cpu_freq_min
          = (engineInit 60).meas.cpu_freq_min
       ∧ (update_measurements (engineInit 60) tick0 60).meas.cpu_freq_max
          = (engineInit 60).meas.cpu_freq_max
       ∧ (update_measurements (engineInit 60) tick0 60).meas.rdram_bandwidth
          = (engineInit 60).meas.rdram_bandwidth
       ∧ (update_measurements (engineInit 60) tick0 60).meas.actual_fps
          = (engineInit 60).meas.actual_fps
       ∧ (update_measurements (engineInit 60) tick0 60).meas.current_scanline
          = (tick0.vi_current >>> 1) &&& 0x3FF) :=
  ⟨(update_is_frame_tick (engineInit 60) tick0 60).1,
   (update_is_frame_tick (engineInit 60) tick0 60).2 (by decide) (by decide)
     (fun hm => absurd hm (by decide))⟩

/-- Claim C7 counterexample: from the state `main` establishes, a first
call of `update_measurements` leaves `frames_counted = 1`; an immediately
following second call — with no other event in between — changes the
derived-metrics record again, to `frames_counted = 2`, so the claimed
idempotence fails on the cumulative frame counter. -/
theorem second_call_changes_the_metrics :
    (update_measurements (update_measurements (engineInit 60) tick0 60)
        tick0 60).meas.frames_counted = 2
    ∧ (update_measurements (engineInit 60) tick0 60).meas.frames_counted = 1
    ∧ (2 : ℕ) ≠ 1 := by
  refine ⟨?_, ?_, by decide⟩
  · rw [update_frames, update_frames]
    rfl
  · rw [update_frames]
    rfl

/-- Claim C5 (amended): on every fire of the CPU-frequency window,
`cpu_freq_min` is replaced exactly when the current minimum is the zero
sentinel or the new estimate is strictly lower, and `cpu_freq_max` is
replaced exactly when the new estimate is strictly higher; but `main`
seeds both bounds to 93.75 before the first fire, so after the first fire
the bounds are `min (first estimate) 93.75` and `max (first estimate)
93.75` — they both equal the first estimate only when it is exactly
93.75. -/
theorem minmax_update_conditions (s : EngineState) (cc : ℕ) (fr : ℚ)
    (hm : s.measuring = true)
    (hfe : 5 ≤ sub32 s.meas.frames_counted s.last_frame_count) :
    ((measure_cpu_frequency_continuous s cc fr).meas.cpu_freq_min
       = if s.meas.cpu_freq_min = 0
            ∨ cpu_freq_estimate s cc fr < s.meas.cpu_freq_min
         then cpu_freq_estimate s cc fr else s.meas.cpu_freq_min)
    ∧ ((measure_cpu_frequency_continuous s cc fr).meas.cpu_freq_max
       = if s.meas.cpu_freq_max < cpu_freq_estimate s cc fr
         then cpu_freq_estimate s cc fr else s.meas.cpu_freq_max)
    ∧ (engineInit fr).meas.cpu_freq_min = 93.75
    ∧ (engineInit fr).meas.cpu_freq_max = 93.75 := by
  refine ⟨?_, ?_, rfl, rfl⟩
  · unfold measure_cpu_frequency_continuous
    rw [hm]
    simp only [Bool.true_eq_false, if_false]
    rw [if_pos hfe]
    rfl
  · unfold measure_cpu_frequency_continuous
    rw [hm]
    simp only [Bool.true_eq_false, if_false]
    rw [if_pos hfe]
    rfl

theorem minmax_update_conditions_witness :
    ((measure_cpu_frequency_continuous sArmed 3906250 60).meas.cpu_freq_min
       = if sArmed.meas.cpu_freq_min = 0
            ∨ cpu_freq_estimate sArmed 3906250 60 < sArmed.meas.cpu_freq_min
         then cpu_freq_estimate sArmed 3906250 60
         else sArmed.meas.cpu_freq_min)
    ∧ ((measure_cpu_frequency_continuous sArmed 3906250 60).meas.cpu_freq_max
       = if sArmed.meas.cpu_freq_max < cpu_freq_estimate sArmed 3906250 60
         then cpu_freq_estimate sArmed 3906250 60
         else sArmed.meas.cpu_freq_max)
    ∧ (engineInit 60).meas.cpu_freq_min = 93.75
    ∧ (engineInit 60).meas.cpu_freq_max = 93.75 :=
  minmax_update_conditions sArmed 3906250 60 rfl (by decide)

/-- Claim C5 counterexample: running the engine from the state `main`
establishes, with the counter reads of `csIn`, the CPU window's very first
fire happens on tick 6 and publishes the estimate 90 MHz; afterwards
`cpu_freq_min = 90` but `cpu_freq_max = 93.75` — the first sample did not
seed both bounds, because `main` had already seeded them to 93.75. -/
theorem first_fire_does_not_seed_bounds :
    (run 60 csIn 6).meas.cpu_freq_current = 90
    ∧ (run 60 csIn 6).meas.cpu_freq_min = 90
    ∧ (run 60 csIn 6).meas.cpu_freq_max = 93.75
    ∧ ¬ ((93.75 : ℚ) = 90) := by
  have h6 : run 60 csIn 6
      = update_measurements (update_measurements (update_measurements
          (update_measurements (update_measurements (update_measurements
            (engineInit 60) (csIn 0) 60) (csIn 1) 60) (csIn 2) 60)
          (csIn 3) 60) (csIn 4) 60) (csIn 5) 60 := rfl
  rw [h6]
  norm_num [update_measurements, measure_cpu_frequency_continuous,
    measure_video_scanline, calculate_fps, measure_memory_bandwidth,
    engineInit, csIn, tick0, sub32, cpu_freq_estimate, minmax_update]
